import Mathlib

/-!
Verification of the XSLT batch-transform scripts
(`XSLTTransform.py` and `xsltTransformerandScraper.py`).

The pure matching logic is embedded directly; the side-effecting parts
(subprocess invocations, the filesystem walk, the global accumulators)
are embedded as explicit state passing over an oracle describing what
each external process did.
-/

namespace XSLT

/-- Python `str.upper()` (ASCII model, as all names in play are ASCII). -/
def pyUpper (s : String) : String := String.mk (s.data.map Char.toUpper)

/-- Python `str.lower()` (ASCII model). -/
def pyLower (s : String) : String := String.mk (s.data.map Char.toLower)

/-- Python `str.strip()`: drop surrounding whitespace. -/
def pyStrip (s : String) : String :=
  String.mk (((s.data.dropWhile Char.isWhitespace).reverse.dropWhile Char.isWhitespace).reverse)

/-- Python `str.endswith(suffix)`. -/
def strEndsWith (s suffix : String) : Bool :=
  List.isPrefixOf suffix.data.reverse s.data.reverse

/-- Python's `needle in hay` substring test, on character lists. -/
def listInfix (needle : List Char) : List Char → Bool
  | [] => needle.isEmpty
  | c :: rest => List.isPrefixOf needle (c :: rest) || listInfix needle rest

/-- Python's `needle in hay` substring test on strings. -/
def isSubstrOf (needle hay : String) : Bool := listInfix needle.data hay.data

/-- Python `pathlib.Path(name).stem` for a bare filename: the name without
its final dot-suffix; a leading dot or a trailing dot is not a suffix. -/
def stem (name : String) : String :=
  let cs := name.data
  if '.' ∈ cs then
    let i := cs.length - 1 - List.indexOf '.' cs.reverse
    if 0 < i ∧ i < cs.length - 1 then String.mk (cs.take i) else name
  else name

/-- The cleaned match key of `find_matching_xslt`:
`re.sub(r'\d+', '', Path(xml_filename).stem).strip().upper()`. -/
def cleanKey (xml_filename : String) : String :=
  pyUpper (pyStrip (String.mk ((stem xml_filename).data.filter (fun c => !c.isDigit))))

/-- The per-candidate test of `find_matching_xslt` in `src/XSLTTransform.py`
for a given cleaned key: substring containment conjoined with
`statusExist = "STATUS" in prefix_clean.upper() and "STATUS" in xslt_upper`. -/
def matchCondKey (prefix_clean xslt : String) : Bool :=
  let xslt_upper := pyUpper (pyStrip xslt)
  let statusExist := isSubstrOf "STATUS" (pyUpper prefix_clean) && isSubstrOf "STATUS" xslt_upper
  isSubstrOf prefix_clean xslt_upper && statusExist

/-- The per-candidate test of `find_matching_xslt` applied to an XML filename. -/
def matchCond (xml_filename xslt : String) : Bool :=
  matchCondKey (cleanKey xml_filename) xslt

/-- The `for xslt in xslt_files` loop of `find_matching_xslt` in
`src/XSLTTransform.py`, returning the first candidate passing the test. -/
def findLoop (prefix_clean : String) : List String → Option String
  | [] => none
  | xslt :: rest =>
      let xslt_upper := pyUpper (pyStrip xslt)
      let statusExist := isSubstrOf "STATUS" (pyUpper prefix_clean) && isSubstrOf "STATUS" xslt_upper
      if isSubstrOf prefix_clean xslt_upper && statusExist then some xslt
      else findLoop prefix_clean rest

/-- `find_matching_xslt` of `src/XSLTTransform.py` (the STATUS-guard variant). -/
def find_matching_xslt (xml_filename : String) (xslt_files : List String) : Option String :=
  findLoop (cleanKey xml_filename) xslt_files

namespace Scraper

/-- The per-candidate test of `find_matching_xslt` in
`src/xsltTransformerandScraper.py` (plain substring containment, no guard). -/
def matchCondKey (prefix_clean xslt : String) : Bool :=
  isSubstrOf prefix_clean (pyUpper (pyStrip xslt))

/-- The per-candidate test applied to an XML filename. -/
def matchCond (xml_filename xslt : String) : Bool :=
  matchCondKey (cleanKey xml_filename) xslt

/-- The matching loop of `find_matching_xslt` in
`src/xsltTransformerandScraper.py`. -/
def findLoop (prefix_clean : String) : List String → Option String
  | [] => none
  | xslt :: rest =>
      let xslt_upper := pyUpper (pyStrip xslt)
      if isSubstrOf prefix_clean xslt_upper then some xslt
      else findLoop prefix_clean rest

/-- `find_matching_xslt` of `src/xsltTransformerandScraper.py`. -/
def find_matching_xslt (xml_filename : String) (xslt_files : List String) : Option String :=
  findLoop (cleanKey xml_filename) xslt_files

end Scraper

/-- The matcher condition as the specification §4.2 words it: the key is a
substring of the candidate, and `"STATUS"` appears in the key iff it appears
in the candidate. Stated for comparison with `matchCond`, the condition the
code of `src/XSLTTransform.py` actually implements. -/
def spec_match (xml_filename xslt : String) : Bool :=
  let key := cleanKey xml_filename
  let cand := pyUpper (pyStrip xslt)
  isSubstrOf key cand && (isSubstrOf "STATUS" key == isSubstrOf "STATUS" cand)

end XSLT

namespace XSLT

/-- C1: the spec's iff-guard predicate accepts `Invoice.xml` against
`INVOICE.xslt` (substring holds, STATUS absent from both), yet the code of
`src/XSLTTransform.py` returns no match there: its guard demands STATUS in
both names, contradicting the spec and the code's own comment
"Want to make sure both have status or both don't". -/
theorem c1_guard_is_and_not_iff :
    spec_match "Invoice.xml" "INVOICE.xslt" = true ∧
    find_matching_xslt "Invoice.xml" ["INVOICE.xslt"] = none := by
  exact ⟨rfl, rfl⟩

/-- C2: in `src/xsltTransformerandScraper.py` the two spec examples match as
claimed, but in `src/XSLTTransform.py` both return no match, because its
STATUS conjunction rejects every pair in which neither name contains STATUS. -/
theorem c2_case_and_digit_insensitive :
    Scraper.find_matching_xslt "Invoice123.xml" ["INVOICE.xslt"] = some "INVOICE.xslt" ∧
    Scraper.find_matching_xslt "invoice.xml" ["INVOICE.xslt"] = some "INVOICE.xslt" ∧
    find_matching_xslt "Invoice123.xml" ["INVOICE.xslt"] = none ∧
    find_matching_xslt "invoice.xml" ["INVOICE.xslt"] = none := by
  exact ⟨rfl, rfl, rfl, rfl⟩

/-- C4: STATUS guard behaviour of `src/XSLTTransform.py` on the spec's
examples: `Message.xml` does not match `MessageStatus.xslt`, while
`MessageStatus.xml` does. -/
theorem c4_status_guard_examples :
    find_matching_xslt "Message.xml" ["MessageStatus.xslt"] = none ∧
    find_matching_xslt "MessageStatus.xml" ["MessageStatus.xslt"] = some "MessageStatus.xslt" := by
  exact ⟨rfl, rfl⟩

end XSLT

namespace XSLT

/-- Unfolding of the matcher loop of `src/XSLTTransform.py` on a cons cell:
the branch condition is exactly `matchCondKey`. -/
theorem findLoop_cons (key x : String) (rest : List String) :
    findLoop key (x :: rest) = if matchCondKey key x then some x else findLoop key rest := rfl

/-- The matcher loop of `src/XSLTTransform.py` is a first-match search. -/
theorem findLoop_eq_find (key : String) :
    ∀ l : List String, findLoop key l = l.find? (matchCondKey key)
  | [] => rfl
  | x :: rest => by
      rw [findLoop_cons]
      cases hc : matchCondKey key x with
      | true =>
          rw [if_pos rfl, List.find?_cons_of_pos rest hc]
      | false =>
          rw [if_neg (by simp), List.find?_cons_of_neg rest (by simp [hc]),
            findLoop_eq_find key rest]

/-- Unfolding of the scraper's matcher loop on a cons cell. -/
theorem scraper_findLoop_cons (key x : String) (rest : List String) :
    Scraper.findLoop key (x :: rest) =
      if Scraper.matchCondKey key x then some x else Scraper.findLoop key rest := rfl

/-- The matcher loop of `src/xsltTransformerandScraper.py` is a first-match search. -/
theorem scraper_findLoop_eq_find (key : String) :
    ∀ l : List String, Scraper.findLoop key l = l.find? (Scraper.matchCondKey key)
  | [] => rfl
  | x :: rest => by
      rw [scraper_findLoop_cons]
      cases hc : Scraper.matchCondKey key x with
      | true =>
          rw [if_pos rfl, List.find?_cons_of_pos rest hc]
      | false =>
          rw [if_neg (by simp), List.find?_cons_of_neg rest (by simp [hc]),
            scraper_findLoop_eq_find key rest]

/-- C5: both variants of `find_matching_xslt` return the first stylesheet, in
enumeration order, satisfying their respective match condition (hence at most
one stylesheet per file), and on the empty stylesheet list both return `none`. -/
theorem c5_first_match_or_none (f : String) (l : List String) :
    find_matching_xslt f l = l.find? (matchCond f)
    ∧ Scraper.find_matching_xslt f l = l.find? (Scraper.matchCond f)
    ∧ find_matching_xslt f [] = none
    ∧ Scraper.find_matching_xslt f [] = none :=
  ⟨findLoop_eq_find (cleanKey f) l, scraper_findLoop_eq_find (cleanKey f) l, rfl, rfl⟩

/-- The `STATUS`-conjunction guard makes the matcher loop of
`src/XSLTTransform.py` reject every candidate once the cleaned key is empty:
`"STATUS" in ""` is false, so `statusExist` is false at every candidate. -/
theorem findLoop_empty_key : ∀ l : List String, findLoop "" l = none
  | [] => rfl
  | x :: rest => by
      rw [findLoop_cons]
      have hc : matchCondKey "" x = false := by
        show (isSubstrOf "" (pyUpper (pyStrip x)) &&
          (isSubstrOf "STATUS" (pyUpper "") && isSubstrOf "STATUS" (pyUpper (pyStrip x)))) = false
        have hs : isSubstrOf "STATUS" (pyUpper "") = false := rfl
        rw [hs, Bool.false_and, Bool.and_false]
      rw [if_neg (by simp [hc]), findLoop_empty_key rest]

/-- A filename whose stem is all digits cleans to the empty key. -/
theorem cleanKey_of_all_digits (name : String)
    (h : (stem name).data.all Char.isDigit = true) : cleanKey name = "" := by
  unfold cleanKey
  have hfil : (stem name).data.filter (fun c => !c.isDigit) = [] := by
    rw [List.filter_eq_nil_iff]
    intro a ha
    have hd := List.all_eq_true.mp h a ha
    simp [hd]
  rw [hfil]
  rfl

/-- C9: in `src/XSLTTransform.py`, a filename whose stem consists only of
digits (empty cleaned key) matches no stylesheet, for every stylesheet list:
the STATUS conjunction is false for the empty key even though the empty
string is a substring of every candidate. -/
theorem c9_digit_only_stem_never_matches (xslt_files : List String) (name : String)
    (h : (stem name).data.all Char.isDigit = true) :
    find_matching_xslt name xslt_files = none := by
  unfold find_matching_xslt
  rw [cleanKey_of_all_digits name h]
  exact findLoop_empty_key xslt_files

/-- C9 witness: `123.xml` has an all-digit stem and matches nothing, even
against a stylesheet whose name contains every string as a substring prefix. -/
theorem c9_witness :
    ((stem "123.xml").data.all Char.isDigit = true)
    ∧ find_matching_xslt "123.xml" ["Invoice.xslt", "MessageStatus.xslt"] = none :=
  ⟨by decide, c9_digit_only_stem_never_matches ["Invoice.xslt", "MessageStatus.xslt"] "123.xml" (by decide)⟩

end XSLT

namespace XSLT

/-- Outcome of one `subprocess.run` call on the external transform engine:
it either completes with an exit code and captured output streams, or the
30-second limit elapses (Python then raises `TimeoutExpired`). -/
inductive RunResult where
  | completed (returncode : Int) (stdout stderr : String)
  | timeoutExpired
deriving DecidableEq

/-- The Python exceptions relevant to `process_file`'s `try` block. -/
inductive PyExn where
  | calledProcessError (stderr : String)
  | timeoutExpired
deriving DecidableEq

/-- `subprocess.run(..., check=True, timeout=30)`: normal return on exit
code zero, `CalledProcessError` on a non-zero exit, `TimeoutExpired` on
timeout. -/
def runChecked : RunResult → Except PyExn Unit
  | .completed rc _ stderr => if rc = 0 then .ok () else .error (.calledProcessError stderr)
  | .timeoutExpired => .error .timeoutExpired

/-- Outcome of the `xmllint --format` step as `format_with_xmllint` observes
it: either the pretty-print and move succeed, or one of the two checked
subprocesses exits non-zero (`CalledProcessError`, caught and logged). -/
inductive FormatResult where
  | ok
  | failed (stderr : String)
deriving DecidableEq

/-- Outcome of the `xmllint --noout --schema` invocation inside
`validate_xml_schema`: a completed run with exit code and captured streams,
or any exception raised by the invocation (e.g. tool not found). -/
inductive ValidationRun where
  | completed (returncode : Int) (stdout stderr : String)
  | exception (msg : String)
deriving DecidableEq

/-- Python `dict` assignment `d[k] = v` on an association list with unique
keys: replace the value at an existing key, else append the pair. -/
def dictInsert : List (String × String) → String → String → List (String × String)
  | [], k, v => [(k, v)]
  | p :: rest, k, v => if p.1 == k then (k, v) :: rest else p :: dictInsert rest k v

/-- Python `dict` lookup `d.get(k)` on the association list. -/
def dictGet (m : List (String × String)) (k : String) : Option String :=
  (m.find? (fun p => p.1 == k)).map (fun p => p.2)

/-- The process-wide mutable state of `src/XSLTTransform.py`: the
`validation_errors` dict, the `unmatched_files` list, the error log
written through `logging.error`, and the set of destination files the
external transform engine has written. -/
structure GState where
  validation_errors : List (String × String)
  unmatched_files : List String
  errorLog : List String
  outputs : List (List String)
deriving DecidableEq

/-- `validate_xml_schema` of `src/XSLTTransform.py`, as a function of the
current `validation_errors` dict and the validator outcome: exit code zero
records nothing; a non-zero exit records `stderr or stdout or generic`
(each stream `.decode().strip()`-ed); an exception records `str(e)`.
Everything is caught inside, so the dict is always returned. -/
def validate_xml_schema (errs : List (String × String)) (file_path : String) :
    ValidationRun → List (String × String)
  | .completed rc out err =>
      if rc = 0 then errs
      else
        let stdout := pyStrip out
        let stderr := pyStrip err
        let error_msg := if stderr ≠ "" then stderr
          else if stdout ≠ "" then stdout
          else "Validation failed with unknown error."
        dictInsert errs file_path error_msg
  | .exception msg => dictInsert errs file_path msg

/-- `format_with_xmllint` of `src/XSLTTransform.py`: a `CalledProcessError`
from either subprocess is caught and logged; nothing else changes. -/
def format_with_xmllint (st : GState) (file_path : String) : FormatResult → GState
  | .ok => st
  | .failed stderr =>
      { st with errorLog :=
          st.errorLog ++ ["xmllint formatting failed for " ++ file_path ++ ": " ++ pyStrip stderr] }

/-- A path, modelled as its list of segments (`pathlib` parts). -/
abbrev PathParts := List String

/-- `str(path)` on a parts list. -/
def pathStr (p : PathParts) : String := String.intercalate "/" p

/-- What the external processes did for one file: the Saxon transform
outcome, the `xmllint --format` outcome, and the schema-validator outcome. -/
structure FileRun where
  transform : RunResult
  fmt : FormatResult
  validation : ValidationRun
deriving DecidableEq

/-- `process_file` of `src/XSLTTransform.py`. The `try` block runs the
transform (`check=True, timeout=30`), then formatting, then optional schema
validation, and returns `True`; the `except` clause catches only
`CalledProcessError` (logging it and returning `False`), so a
`TimeoutExpired` escapes as an uncaught exception. On a successful
transform the engine has written the destination file (`outputs`). -/
def process_file (st : GState) (input_file : String) (output_file : PathParts)
    (run : FileRun) (schema : Bool) : Except PyExn (GState × Bool) :=
  match runChecked run.transform with
  | .ok _ =>
      let st1 := { st with outputs := st.outputs ++ [output_file] }
      let st2 := format_with_xmllint st1 (pathStr output_file) run.fmt
      let st3 := if schema then
          { st2 with validation_errors :=
              validate_xml_schema st2.validation_errors (pathStr output_file) run.validation }
        else st2
      .ok (st3, true)
  | .error (.calledProcessError stderr) =>
      .ok ({ st with errorLog := st.errorLog ++ [input_file ++ " - " ++ pyStrip stderr] }, false)
  | .error .timeoutExpired => .error .timeoutExpired

/-- `load_xslt_files`: directory entries whose names end in `.xsl` or `.xslt`. -/
def load_xslt_files (listing : List String) : List String :=
  listing.filter (fun f => strEndsWith f ".xsl" || strEndsWith f ".xslt")

/-- `ensure_output_path` of `src/XSLTTransform.py`: the input path relative
to `root_dir`, re-rooted under `root_dir.parent / modified_folder_name`. -/
def ensure_output_path (root_dir : PathParts) (relParts : PathParts) (file : String)
    (modified_folder_name : String) : PathParts :=
  root_dir.dropLast ++ [modified_folder_name] ++ relParts ++ [file]

/-- The body of the inner `for file in files` loop of `traverse_and_process`
in `src/XSLTTransform.py`, for one directory entry: non-`.xml` names are
ignored; an unmatched `.xml` file is logged and appended to
`unmatched_files`; a matched one goes through `process_file` (whose
uncaught exceptions propagate). -/
def processOneFile (modified : String) (root relParts : PathParts) (xslt_files : List String)
    (schema : Bool) (st : GState) (file : String) (run : FileRun) : Except PyExn GState :=
  if strEndsWith (pyLower file) ".xml" then
    let input_file_path := root ++ relParts ++ [file]
    match find_matching_xslt file xslt_files with
    | none =>
        .ok { st with
          unmatched_files := st.unmatched_files ++ [pathStr input_file_path],
          errorLog := st.errorLog ++ ["No matching XSLT for " ++ file] }
    | some _ =>
        let output_file_path := ensure_output_path root relParts file modified
        match process_file st (pathStr input_file_path) output_file_path run schema with
        | .ok (st1, _success) => .ok st1
        | .error e => .error e
  else .ok st

/-- The inner loop over the files of one visited directory. -/
def processFiles (modified : String) (root relParts : PathParts) (xslt_files : List String)
    (schema : Bool) : GState → List (String × FileRun) → Except PyExn GState
  | st, [] => .ok st
  | st, (file, run) :: rest =>
      match processOneFile modified root relParts xslt_files schema st file run with
      | .ok st1 => processFiles modified root relParts xslt_files schema st1 rest
      | .error e => .error e

/-- One `os.walk` entry: the directory's parts relative to the walk root,
and its files paired with what the external processes would do for each. -/
structure WalkEntry where
  relParts : PathParts
  files : List (String × FileRun)
deriving DecidableEq

/-- The outer `for current_dir, subdirs, files in os.walk(root_dir)` loop of
`traverse_and_process` in `src/XSLTTransform.py`: a directory whose parts
contain `modified_folder_name` is skipped (`continue`); otherwise its files
are processed in order. -/
def processWalk (modified : String) (root : PathParts) (xslt_files : List String)
    (schema : Bool) : GState → List WalkEntry → Except PyExn GState
  | st, [] => .ok st
  | st, e :: rest =>
      if modified ∈ root ++ e.relParts then
        processWalk modified root xslt_files schema st rest
      else
        match processFiles modified root e.relParts xslt_files schema st e.files with
        | .ok st1 => processWalk modified root xslt_files schema st1 rest
        | .error err => .error err

/-- `traverse_and_process` of `src/XSLTTransform.py`: load the stylesheet
index once, then walk. -/
def traverse_and_process (root : PathParts) (xsltListing : List String) (modified : String)
    (schema : Bool) (st : GState) (walk : List WalkEntry) : Except PyExn GState :=
  processWalk modified root (load_xslt_files xsltListing) schema st walk

/-- `write_unmatched_files_report` of `src/XSLTTransform.py`: no report file
when nothing is unmatched, otherwise a header, a blank line and one line per
unmatched path. -/
def write_unmatched_files_report (unmatched : List String) : Option (List String) :=
  if unmatched.isEmpty then none
  else some ([" Unmatched XML Files (no matching XSLT):", ""] ++ unmatched)

end XSLT

namespace XSLT

/-- Looking up the key just written by a Python dict assignment yields the
written value. -/
theorem dictGet_dictInsert (m : List (String × String)) (k v : String) :
    dictGet (dictInsert m k v) k = some v := by
  induction m with
  | nil => simp [dictInsert, dictGet]
  | cons p rest ih =>
      cases hp : (p.1 == k) with
      | true => simp [dictInsert, hp, dictGet]
      | false =>
          have hfind : List.find? (fun q => q.1 == k) (p :: dictInsert rest k v)
              = List.find? (fun q => q.1 == k) (dictInsert rest k v) :=
            List.find?_cons_of_neg _ (by simp [hp])
          simp only [dictInsert, hp, Bool.false_eq_true, if_false, dictGet, hfind]
          exact ih

/-- C7: in `validate_xml_schema` of `src/XSLTTransform.py`, exit code zero
records nothing; a non-zero exit records the stripped standard-error text,
falling back to standard-output, then to the generic message; an invocation
exception is caught and recorded in the same dict, never propagated (the
function totally returns the updated dict). -/
theorem c7_validator_recording (errs : List (String × String)) (p : String) :
    (∀ out err, validate_xml_schema errs p (ValidationRun.completed 0 out err) = errs)
    ∧ (∀ (rc : Int) (out err : String), rc ≠ 0 →
        dictGet (validate_xml_schema errs p (ValidationRun.completed rc out err)) p =
          some (if pyStrip err ≠ "" then pyStrip err
            else if pyStrip out ≠ "" then pyStrip out
            else "Validation failed with unknown error."))
    ∧ (∀ msg, validate_xml_schema errs p (ValidationRun.exception msg) = dictInsert errs p msg
        ∧ dictGet (validate_xml_schema errs p (ValidationRun.exception msg)) p = some msg) := by
  refine ⟨fun out err => by simp [validate_xml_schema], fun rc out err hrc => ?_, fun msg => ?_⟩
  · simp only [validate_xml_schema, if_neg hrc]
    exact dictGet_dictInsert errs p _
  · exact ⟨rfl, dictGet_dictInsert errs p msg⟩

/-- C7 witness: concrete validator outcomes, each discharged through
`c7_validator_recording`. -/
theorem c7_witness :
    validate_xml_schema [] "Modified/A.xml" (ValidationRun.completed 0 "o" "e") = []
    ∧ dictGet (validate_xml_schema [] "Modified/A.xml" (ValidationRun.completed 1 "out" "bad"))
        "Modified/A.xml" = some "bad"
    ∧ dictGet (validate_xml_schema [] "Modified/A.xml" (ValidationRun.completed 1 "out" ""))
        "Modified/A.xml" = some "out"
    ∧ dictGet (validate_xml_schema [] "Modified/A.xml" (ValidationRun.completed 1 "" ""))
        "Modified/A.xml" = some "Validation failed with unknown error."
    ∧ dictGet (validate_xml_schema [] "Modified/A.xml" (ValidationRun.exception "tool not found"))
        "Modified/A.xml" = some "tool not found" := by
  refine ⟨(c7_validator_recording [] "Modified/A.xml").1 "o" "e", ?_, ?_, ?_,
    ((c7_validator_recording [] "Modified/A.xml").2.2 "tool not found").2⟩
  · rw [(c7_validator_recording [] "Modified/A.xml").2.1 1 "out" "bad" (by decide)]
    rfl
  · rw [(c7_validator_recording [] "Modified/A.xml").2.1 1 "out" "" (by decide)]
    rfl
  · rw [(c7_validator_recording [] "Modified/A.xml").2.1 1 "" "" (by decide)]
    rfl

/-- C10: `process_file` of `src/XSLTTransform.py` returns `True` whenever the
transform subprocess exits with code zero, whatever the formatting step and
the optional schema validation do; its boolean reflects transform success
only. -/
theorem c10_true_whenever_transform_succeeds (st : GState) (input_file : String)
    (output_file : PathParts) (sout serr : String) (fmt : FormatResult)
    (vr : ValidationRun) (schema : Bool) :
    ∃ st1, process_file st input_file output_file ⟨RunResult.completed 0 sout serr, fmt, vr⟩ schema
      = Except.ok (st1, true) :=
  ⟨_, rfl⟩

/-- C3 counterexample: a transform-step timeout is not treated as a per-file
failure: `process_file` raises (returns no boolean), and a one-file run
aborts with the uncaught `TimeoutExpired` instead of continuing. -/
theorem c3_timeout_aborts_run :
    process_file ⟨[], [], [], []⟩ "R/MessageStatus1.xml" ["Modified", "MessageStatus1.xml"]
      ⟨RunResult.timeoutExpired, FormatResult.ok, ValidationRun.completed 0 "" ""⟩ false
      = Except.error PyExn.timeoutExpired
    ∧ traverse_and_process ["R"] ["MessageStatus.xslt"] "Modified" false ⟨[], [], [], []⟩
        [⟨[], [("MessageStatus1.xml",
          ⟨RunResult.timeoutExpired, FormatResult.ok, ValidationRun.completed 0 "" ""⟩)]⟩]
      = Except.error PyExn.timeoutExpired :=
  ⟨rfl, rfl⟩

/-- C3 (amended): a non-zero exit of the transform engine is caught by
`process_file` — the error is logged and the file reported failed, and a
later file is still processed — but the `except` clause catches only
`CalledProcessError`, so a timeout raises `TimeoutExpired`, which escapes
`process_file` uncaught. -/
theorem c3_nonzero_caught_timeout_uncaught (st : GState) (input_file : String)
    (output_file : PathParts) (rc : Int) (sout serr : String) (fmt : FormatResult)
    (vr : ValidationRun) (schema : Bool) (hrc : rc ≠ 0) :
    process_file st input_file output_file ⟨RunResult.completed rc sout serr, fmt, vr⟩ schema
      = Except.ok ({ st with errorLog := st.errorLog ++ [input_file ++ " - " ++ pyStrip serr] },
          false)
    ∧ process_file st input_file output_file ⟨RunResult.timeoutExpired, fmt, vr⟩ schema
      = Except.error PyExn.timeoutExpired
    ∧ traverse_and_process ["R"] ["MessageStatus.xslt"] "Modified" false ⟨[], [], [], []⟩
        [⟨[], [("MessageStatus1.xml",
            ⟨RunResult.completed 1 "" "saxon failed", FormatResult.ok,
              ValidationRun.completed 0 "" ""⟩),
          ("MessageStatus2.xml",
            ⟨RunResult.completed 0 "" "", FormatResult.ok,
              ValidationRun.completed 0 "" ""⟩)]⟩]
      = Except.ok ⟨[], [], ["R/MessageStatus1.xml - saxon failed"],
          [["Modified", "MessageStatus2.xml"]]⟩ := by
  refine ⟨?_, rfl, rfl⟩
  simp only [process_file, runChecked, if_neg hrc]

/-- C3 witness for the amended statement, at exit code 1. -/
theorem c3_witness :
    (1 : Int) ≠ 0
    ∧ process_file ⟨[], [], [], []⟩ "R/A.xml" ["Modified", "A.xml"]
        ⟨RunResult.completed 1 "" "boom", FormatResult.ok, ValidationRun.completed 0 "" ""⟩ false
      = Except.ok (⟨[], [], ["R/A.xml - boom"], []⟩, false) :=
  ⟨by decide,
   (c3_nonzero_caught_timeout_uncaught ⟨[], [], [], []⟩ "R/A.xml" ["Modified", "A.xml"] 1 "" "boom"
     FormatResult.ok (ValidationRun.completed 0 "" "") false (by decide)).1⟩

/-- C8: the tree walker skips every visited directory whose path parts
contain the configured output folder name: the walk entry contributes
nothing, exactly as if it were absent, whatever files it holds — including
output files left by a prior run. -/
theorem c8_output_folder_never_processed (modified : String) (root : PathParts)
    (xslt_files : List String) (schema : Bool) (st : GState) (e : WalkEntry)
    (rest : List WalkEntry) (h : modified ∈ root ++ e.relParts) :
    processWalk modified root xslt_files schema st (e :: rest)
      = processWalk modified root xslt_files schema st rest := by
  simp only [processWalk, if_pos h]

/-- C8 witness: a re-run whose output folder still holds a processable file
from the previous run leaves the walk unaffected by that directory. -/
theorem c8_witness :
    ("Modified" ∈ ["R"] ++ ["Modified", "A"])
    ∧ processWalk "Modified" ["R"] ["MessageStatus.xslt"] false ⟨[], [], [], []⟩
        [⟨["Modified", "A"], [("MessageStatus1.xml",
          ⟨RunResult.completed 0 "" "", FormatResult.ok, ValidationRun.completed 0 "" ""⟩)]⟩]
      = processWalk "Modified" ["R"] ["MessageStatus.xslt"] false ⟨[], [], [], []⟩ [] :=
  ⟨by decide,
   c8_output_folder_never_processed "Modified" ["R"] ["MessageStatus.xslt"] false
     ⟨[], [], [], []⟩ _ _ (by decide)⟩

end XSLT

namespace XSLT

/-- The formatting step never touches the unmatched-files accumulator. -/
theorem format_with_xmllint_unmatched (st : GState) (p : String) (f : FormatResult) :
    (format_with_xmllint st p f).unmatched_files = st.unmatched_files := by
  cases f <;> rfl

/-- The formatting step never touches the written-outputs record. -/
theorem format_with_xmllint_outputs (st : GState) (p : String) (f : FormatResult) :
    (format_with_xmllint st p f).outputs = st.outputs := by
  cases f <;> rfl

/-- When `process_file` returns normally, it has not touched the
unmatched-files accumulator, and the only output it can have added is its
own destination path. -/
theorem process_file_ok_effects (st : GState) (i : String) (o : PathParts)
    (run : FileRun) (schema : Bool) (st1 : GState) (b : Bool)
    (h : process_file st i o run schema = Except.ok (st1, b)) :
    st1.unmatched_files = st.unmatched_files
    ∧ ∀ q ∈ st1.outputs, q ∈ st.outputs ∨ q = o := by
  rcases run with ⟨t, f, v⟩
  cases t with
  | timeoutExpired => simp [process_file, runChecked] at h
  | completed rc sout serr =>
      by_cases hrc : rc = 0
      · subst hrc
        simp only [process_file, runChecked, if_pos rfl, if_true] at h
        rw [Except.ok.injEq, Prod.mk.injEq] at h
        obtain ⟨h1, -⟩ := h
        subst h1
        constructor
        · cases schema <;>
            simp [format_with_xmllint_unmatched]
        · intro q hq
          cases schema with
          | true =>
              simp only [if_pos rfl, if_true, format_with_xmllint_outputs,
                List.mem_append, List.mem_singleton] at hq
              exact hq
          | false =>
              simp only [Bool.false_eq_true, if_false, format_with_xmllint_outputs,
                List.mem_append, List.mem_singleton] at hq
              exact hq
      · simp only [process_file, runChecked, if_neg hrc] at h
        rw [Except.ok.injEq, Prod.mk.injEq] at h
        obtain ⟨h1, -⟩ := h
        subst h1
        exact ⟨rfl, fun q hq => Or.inl hq⟩

/-- One step of the inner file loop: existing unmatched entries survive, and
any output it adds is the destination path of its own (matched) file. -/
theorem processOneFile_effects (modified : String) (root relParts : PathParts)
    (xs : List String) (schema : Bool) (st : GState) (g : String) (run : FileRun)
    (st1 : GState) (h : processOneFile modified root relParts xs schema st g run = .ok st1) :
    (∀ p ∈ st.unmatched_files, p ∈ st1.unmatched_files)
    ∧ ∀ q ∈ st1.outputs, q ∈ st.outputs
        ∨ (q = ensure_output_path root relParts g modified ∧ find_matching_xslt g xs ≠ none) := by
  cases hx : strEndsWith (pyLower g) ".xml" with
  | false =>
      simp only [processOneFile, hx, Bool.false_eq_true, if_false, Except.ok.injEq] at h
      subst h
      exact ⟨fun p hp => hp, fun q hq => Or.inl hq⟩
  | true =>
      cases hm : find_matching_xslt g xs with
      | none =>
          simp only [processOneFile, hx, if_pos rfl, if_true, hm, Except.ok.injEq] at h
          subst h
          refine ⟨fun p hp => List.mem_append_left _ hp, fun q hq => Or.inl hq⟩
      | some x =>
          simp only [processOneFile, hx, if_pos rfl, if_true, hm] at h
          cases hpf : process_file st (pathStr (root ++ relParts ++ [g]))
              (ensure_output_path root relParts g modified) run schema with
          | error e => rw [hpf] at h; exact absurd h (by simp)
          | ok pr =>
              rcases pr with ⟨st2, b⟩
              rw [hpf] at h
              simp only [if_true, Except.ok.injEq] at h
              subst h
              obtain ⟨hu, ho⟩ := process_file_ok_effects st _ _ run schema st2 b hpf
              refine ⟨fun p hp => hu ▸ hp, fun q hq => ?_⟩
              rcases ho q hq with h1 | h2
              · exact Or.inl h1
              · exact Or.inr ⟨h2, by simp [hm]⟩

/-- One step of the inner file loop on an unmatched `.xml` file appends the
file's full path to the unmatched accumulator. -/
theorem processOneFile_records (modified : String) (root relParts : PathParts)
    (xs : List String) (schema : Bool) (st : GState) (f : String) (run : FileRun)
    (st1 : GState) (hx : strEndsWith (pyLower f) ".xml" = true)
    (hm : find_matching_xslt f xs = none)
    (h : processOneFile modified root relParts xs schema st f run = .ok st1) :
    pathStr (root ++ relParts ++ [f]) ∈ st1.unmatched_files := by
  simp only [processOneFile, hx, if_pos rfl, if_true, hm, Except.ok.injEq] at h
  subst h
  simp

end XSLT

namespace XSLT

/-- Lifting `processOneFile_effects` over one directory's file list. -/
theorem processFiles_effects (modified : String) (root relParts : PathParts)
    (xs : List String) (schema : Bool) :
    ∀ (files : List (String × FileRun)) (st st1 : GState),
    processFiles modified root relParts xs schema st files = .ok st1 →
    (∀ p ∈ st.unmatched_files, p ∈ st1.unmatched_files)
    ∧ ∀ q ∈ st1.outputs, q ∈ st.outputs
        ∨ ∃ g, (∃ run, (g, run) ∈ files)
            ∧ q = ensure_output_path root relParts g modified ∧ find_matching_xslt g xs ≠ none
  | [], st, st1, h => by
      simp only [processFiles, Except.ok.injEq] at h
      subst h
      exact ⟨fun p hp => hp, fun q hq => Or.inl hq⟩
  | (g, run) :: rest, st, st1, h => by
      cases hstep : processOneFile modified root relParts xs schema st g run with
      | error e => simp [processFiles, hstep] at h
      | ok st2 =>
          have h' : processFiles modified root relParts xs schema st2 rest = .ok st1 := by
            simpa [processFiles, hstep] using h
          obtain ⟨hu1, ho1⟩ := processOneFile_effects modified root relParts xs schema st g run st2 hstep
          obtain ⟨hu2, ho2⟩ := processFiles_effects modified root relParts xs schema rest st2 st1 h'
          refine ⟨fun p hp => hu2 p (hu1 p hp), fun q hq => ?_⟩
          rcases ho2 q hq with hmem | ⟨g', ⟨r', hr'⟩, hq', hm'⟩
          · rcases ho1 q hmem with h1 | ⟨h2, h3⟩
            · exact Or.inl h1
            · exact Or.inr ⟨g, ⟨run, List.mem_cons_self _ _⟩, h2, h3⟩
          · exact Or.inr ⟨g', ⟨r', List.mem_cons_of_mem _ hr'⟩, hq', hm'⟩

/-- Lifting `processOneFile_records` over one directory's file list: once an
unmatched `.xml` file is reached, its path stays in the accumulator. -/
theorem processFiles_records (modified : String) (root relParts : PathParts)
    (xs : List String) (schema : Bool) :
    ∀ (files : List (String × FileRun)) (st st1 : GState) (f : String) (run : FileRun),
    processFiles modified root relParts xs schema st files = .ok st1 →
    (f, run) ∈ files →
    strEndsWith (pyLower f) ".xml" = true →
    find_matching_xslt f xs = none →
    pathStr (root ++ relParts ++ [f]) ∈ st1.unmatched_files
  | [], _, _, _, _, _, hmem, _, _ => absurd hmem (List.not_mem_nil _)
  | (g, r) :: rest, st, st1, f, run, h, hmem, hx, hm => by
      cases hstep : processOneFile modified root relParts xs schema st g r with
      | error e => simp [processFiles, hstep] at h
      | ok st2 =>
          have h' : processFiles modified root relParts xs schema st2 rest = .ok st1 := by
            simpa [processFiles, hstep] using h
          rcases List.mem_cons.mp hmem with heq | htail
          · injection heq with h1 h2
            subst h1
            have hrec := processOneFile_records modified root relParts xs schema st f r st2 hx hm hstep
            exact (processFiles_effects modified root relParts xs schema rest st2 st1 h').1 _ hrec
          · exact processFiles_records modified root relParts xs schema rest st2 st1 f run h' htail hx hm

/-- Lifting the effect lemma over the whole walk. -/
theorem processWalk_effects (modified : String) (root : PathParts) (xs : List String)
    (schema : Bool) :
    ∀ (walk : List WalkEntry) (st st1 : GState),
    processWalk modified root xs schema st walk = .ok st1 →
    (∀ p ∈ st.unmatched_files, p ∈ st1.unmatched_files)
    ∧ ∀ q ∈ st1.outputs, q ∈ st.outputs
        ∨ ∃ e' g, e' ∈ walk ∧ (∃ run, (g, run) ∈ WalkEntry.files e')
            ∧ q = ensure_output_path root (WalkEntry.relParts e') g modified
            ∧ find_matching_xslt g xs ≠ none
  | [], st, st1, h => by
      simp only [processWalk, Except.ok.injEq] at h
      subst h
      exact ⟨fun p hp => hp, fun q hq => Or.inl hq⟩
  | e :: rest, st, st1, h => by
      by_cases hs : modified ∈ root ++ WalkEntry.relParts e
      · have h' : processWalk modified root xs schema st rest = .ok st1 := by
          simpa [processWalk, hs] using h
        obtain ⟨hu, ho⟩ := processWalk_effects modified root xs schema rest st st1 h'
        refine ⟨hu, fun q hq => ?_⟩
        rcases ho q hq with h1 | ⟨e', g, he', hrest⟩
        · exact Or.inl h1
        · exact Or.inr ⟨e', g, List.mem_cons_of_mem _ he', hrest⟩
      · cases hstep : processFiles modified root (WalkEntry.relParts e) xs schema st (WalkEntry.files e) with
        | error err => simp [processWalk, hs, hstep] at h
        | ok st2 =>
            have h' : processWalk modified root xs schema st2 rest = .ok st1 := by
              simpa [processWalk, hs, hstep] using h
            obtain ⟨hu1, ho1⟩ := processFiles_effects modified root (WalkEntry.relParts e) xs schema
              (WalkEntry.files e) st st2 hstep
            obtain ⟨hu2, ho2⟩ := processWalk_effects modified root xs schema rest st2 st1 h'
            refine ⟨fun p hp => hu2 p (hu1 p hp), fun q hq => ?_⟩
            rcases ho2 q hq with hmem | ⟨e', g, he', hrest⟩
            · rcases ho1 q hmem with h1 | ⟨g, hg, hq', hm'⟩
              · exact Or.inl h1
              · exact Or.inr ⟨e, g, List.mem_cons_self _ _, hg, hq', hm'⟩
            · exact Or.inr ⟨e', g, List.mem_cons_of_mem _ he', hrest⟩

/-- Lifting the recording lemma over the whole walk. -/
theorem processWalk_records (modified : String) (root : PathParts) (xs : List String)
    (schema : Bool) :
    ∀ (walk : List WalkEntry) (st st1 : GState) (e : WalkEntry) (f : String) (run : FileRun),
    processWalk modified root xs schema st walk = .ok st1 →
    e ∈ walk → (f, run) ∈ WalkEntry.files e →
    modified ∉ root ++ WalkEntry.relParts e →
    strEndsWith (pyLower f) ".xml" = true →
    find_matching_xslt f xs = none →
    pathStr (root ++ WalkEntry.relParts e ++ [f]) ∈ st1.unmatched_files
  | [], _, _, _, _, _, _, he, _, _, _, _ => absurd he (List.not_mem_nil _)
  | e' :: rest, st, st1, e, f, run, h, he, hf, hskip, hx, hm => by
      by_cases hs : modified ∈ root ++ WalkEntry.relParts e'
      · have h' : processWalk modified root xs schema st rest = .ok st1 := by
          simpa [processWalk, hs] using h
        rcases List.mem_cons.mp he with heq | htail
        · subst heq
          exact absurd hs hskip
        · exact processWalk_records modified root xs schema rest st st1 e f run h' htail hf hskip hx hm
      · cases hstep : processFiles modified root (WalkEntry.relParts e') xs schema st (WalkEntry.files e') with
        | error err => simp [processWalk, hs, hstep] at h
        | ok st2 =>
            have h' : processWalk modified root xs schema st2 rest = .ok st1 := by
              simpa [processWalk, hs, hstep] using h
            rcases List.mem_cons.mp he with heq | htail
            · subst heq
              have hrec := processFiles_records modified root (WalkEntry.relParts e) xs schema
                (WalkEntry.files e) st st2 f run hstep hf hx hm
              exact (processWalk_effects modified root xs schema rest st2 st1 h').1 _ hrec
            · exact processWalk_records modified root xs schema rest st2 st1 e f run h' htail hf hskip hx hm

/-- Two mirrored output paths agree on their final segment only if they are
paths of files with the same name. -/
theorem ensure_output_path_inj_file (root rp1 rp2 : PathParts) (f1 f2 m : String)
    (h : ensure_output_path root rp1 f1 m = ensure_output_path root rp2 f2 m) :
    f1 = f2 := by
  unfold ensure_output_path at h
  have h' := congrArg List.reverse h
  simp only [List.reverse_append, List.reverse_cons, List.reverse_nil, List.nil_append,
    List.cons_append, List.cons.injEq] at h'
  exact h'.1

/-- A recorded unmatched path reappears in the unmatched-files report. -/
theorem write_report_mem (unmatched : List String) (p : String) (hp : p ∈ unmatched) :
    ∃ lines, write_unmatched_files_report unmatched = some lines ∧ p ∈ lines := by
  cases unmatched with
  | nil => cases hp
  | cons a as =>
      refine ⟨_, rfl, ?_⟩
      simp only [List.mem_append]
      exact Or.inr hp

/-- C6: in a completed run of the walker of `src/XSLTTransform.py`, every
visited (non-skipped) `.xml` file with no matching stylesheet has its path
recorded in `unmatched_files`, its mirrored output path is never written
(assuming it was not present before the run), and the end-of-run
unmatched-files report lists that path. -/
theorem c6_unmatched_recorded (root : PathParts) (xsltListing : List String)
    (modified : String) (schema : Bool) (st st1 : GState) (walk : List WalkEntry)
    (e : WalkEntry) (f : String) (run : FileRun)
    (hrun : traverse_and_process root xsltListing modified schema st walk = Except.ok st1)
    (he : e ∈ walk) (hf : (f, run) ∈ WalkEntry.files e)
    (hskip : modified ∉ root ++ WalkEntry.relParts e)
    (hxml : strEndsWith (pyLower f) ".xml" = true)
    (hnm : find_matching_xslt f (load_xslt_files xsltListing) = none)
    (hout : ensure_output_path root (WalkEntry.relParts e) f modified ∉ st.outputs) :
    pathStr (root ++ WalkEntry.relParts e ++ [f]) ∈ st1.unmatched_files
    ∧ ensure_output_path root (WalkEntry.relParts e) f modified ∉ st1.outputs
    ∧ ∃ lines, write_unmatched_files_report st1.unmatched_files = some lines
        ∧ pathStr (root ++ WalkEntry.relParts e ++ [f]) ∈ lines := by
  have hwalk : processWalk modified root (load_xslt_files xsltListing) schema st walk
      = .ok st1 := hrun
  have hmem := processWalk_records modified root (load_xslt_files xsltListing) schema walk
    st st1 e f run hwalk he hf hskip hxml hnm
  refine ⟨hmem, fun hq => ?_, write_report_mem _ _ hmem⟩
  rcases (processWalk_effects modified root (load_xslt_files xsltListing) schema walk
      st st1 hwalk).2 _ hq with h1 | ⟨e', g, _, ⟨r', _⟩, hq', hm'⟩
  · exact hout h1
  · exact hm'
      ((ensure_output_path_inj_file root (WalkEntry.relParts e) (WalkEntry.relParts e')
        f g modified hq') ▸ hnm)

/-- C6 witness: the spec's end-to-end scenario — `B/Unknown.xml` with only
`Invoice.xslt` available — recorded as unmatched, with no output written and
the report naming the path. -/
theorem c6_witness :
    traverse_and_process ["R"] ["Invoice.xslt"] "Modified" false ⟨[], [], [], []⟩
        [⟨["B"], [("Unknown.xml", ⟨RunResult.completed 0 "" "", FormatResult.ok,
          ValidationRun.completed 0 "" ""⟩)]⟩]
      = Except.ok ⟨[], ["R/B/Unknown.xml"], ["No matching XSLT for Unknown.xml"], []⟩
    ∧ ("R/B/Unknown.xml" ∈
        GState.unmatched_files ⟨[], ["R/B/Unknown.xml"], ["No matching XSLT for Unknown.xml"], []⟩
    ∧ ensure_output_path ["R"] ["B"] "Unknown.xml" "Modified" ∉
        GState.outputs ⟨[], ["R/B/Unknown.xml"], ["No matching XSLT for Unknown.xml"], []⟩
    ∧ ∃ lines, write_unmatched_files_report ["R/B/Unknown.xml"] = some lines
        ∧ "R/B/Unknown.xml" ∈ lines) :=
  ⟨rfl,
   c6_unmatched_recorded ["R"] ["Invoice.xslt"] "Modified" false ⟨[], [], [], []⟩
     ⟨[], ["R/B/Unknown.xml"], ["No matching XSLT for Unknown.xml"], []⟩
     [⟨["B"], [("Unknown.xml", ⟨RunResult.completed 0 "" "", FormatResult.ok,
       ValidationRun.completed 0 "" ""⟩)]⟩]
     ⟨["B"], [("Unknown.xml", ⟨RunResult.completed 0 "" "", FormatResult.ok,
       ValidationRun.completed 0 "" ""⟩)]⟩
     "Unknown.xml" ⟨RunResult.completed 0 "" "", FormatResult.ok, ValidationRun.completed 0 "" ""⟩
     rfl (List.mem_singleton.mpr rfl) (List.mem_singleton.mpr rfl)
     (by decide) (by decide) (by decide) (by decide)⟩

end XSLT
